import Mathlib

/-!
Verification of `backend/collector.py`: a shallow embedding in Lean 4 of the
telemetry rate-derivation engine, the public-IP TTL cache, the bandwidth
lookup with its validity gate, and the speed-test command trigger.

Machine floats are idealized as exact rationals (`ℚ`); the Python built-in
`round(x, 2)` is modelled as round-half-to-even at two decimal places.
External effects (psutil counter reads, HTTP fetches, the speedtest run,
Firestore reads/writes) are passed in as explicit inputs or returned as
explicit outputs of the embedded functions.
-/

namespace Collector

/-- Python banker rounding (round-half-to-even) of a rational to an
integer, the behaviour of built-in `round` on an exact value.
`q.num / q.den` (integer division) is the floor of `q`, see `Rat.floor_def`. -/
def roundHalfEven (q : ℚ) : ℤ :=
  if q - ((q.num / (q.den : ℤ) : ℤ) : ℚ) < 1/2 then q.num / (q.den : ℤ)
  else if 1/2 < q - ((q.num / (q.den : ℤ) : ℤ) : ℚ) then q.num / (q.den : ℤ) + 1
  else if (q.num / (q.den : ℤ)) % 2 = 0 then q.num / (q.den : ℤ)
  else q.num / (q.den : ℤ) + 1

/-- Python `round(x, 2)` on an exact rational. -/
def round2 (q : ℚ) : ℚ := (roundHalfEven (q * 100) : ℚ) / 100

/-- `SPEED_SCALING_FACTOR = 0.5` from the configuration block. -/
def SPEED_SCALING_FACTOR : ℚ := 1/2

/-- `PUBLIC_IP_CACHE_TTL = 3600` seconds from the configuration block. -/
def PUBLIC_IP_CACHE_TTL : ℚ := 3600

/-- The `device_id` entry of `MONITORED_DEVICES[0]`. -/
def MONITORED_DEVICE_ID : String := "server_001"

/-- The fields of a `psutil.net_io_counters()` snapshot that the collector
reads (cumulative byte counters). -/
structure NetCounters where
  bytes_sent : ℤ
  bytes_recv : ℤ
deriving DecidableEq

/-- The fields of a `psutil.disk_io_counters()` snapshot that the collector
reads (cumulative byte counters). -/
structure DiskCounters where
  read_bytes : ℤ
  write_bytes : ℤ
deriving DecidableEq

/-- The module-level globals `_prev_net_io`, `_prev_net_time`,
`_prev_disk_io`, `_prev_disk_time` (each starts out `None`). -/
structure TrackerState where
  prev_net_io : Option NetCounters
  prev_net_time : Option ℚ
  prev_disk_io : Option DiskCounters
  prev_disk_time : Option ℚ
deriving DecidableEq

/-- The dict returned by `get_latest_speed_test`. -/
structure SpeedData where
  download_speed_mbps : ℚ
  upload_speed_mbps : ℚ
  isp_name : String
  region : String
  country : String
deriving DecidableEq

/-- The four rounded rates returned by `_get_counter_deltas`. -/
structure RateResult where
  down_mbps : ℚ
  up_mbps : ℚ
  read_mb_s : ℚ
  write_mb_s : ℚ
deriving DecidableEq

/-- The network half of `_get_counter_deltas`: `down_mbps`/`up_mbps` start at
`0.0`; the delta computation runs only when `_prev_net_io and _prev_net_time`
is truthy (a `None` previous sample, or a stored float timestamp equal to
`0.0`, is falsy) and `elapsed = now - ptime > 0`.  In that branch each rate
is `(((delta)*8)/(elapsed*1024*1024))*SPEED_SCALING_FACTOR`, clamped by
`min(rate, speed_data[...]*1.5)` where `speed_data` is the value returned by
the call to `get_latest_speed_test()` made inside that branch. -/
def net_rates (prev_io : Option NetCounters) (prev_time : Option ℚ)
    (now : ℚ) (net : NetCounters) (speed_data : SpeedData) : ℚ × ℚ :=
  match prev_io, prev_time with
  | some prev, some ptime =>
    if ptime ≠ 0 then
      if now - ptime > 0 then
        (min ((((net.bytes_recv - prev.bytes_recv : ℤ) : ℚ) * 8) /
            ((now - ptime) * 1024 * 1024) * SPEED_SCALING_FACTOR)
          (speed_data.download_speed_mbps * (1.5 : ℚ)),
         min ((((net.bytes_sent - prev.bytes_sent : ℤ) : ℚ) * 8) /
            ((now - ptime) * 1024 * 1024) * SPEED_SCALING_FACTOR)
          (speed_data.upload_speed_mbps * (1.5 : ℚ)))
      else (0, 0)
    else (0, 0)
  | _, _ => (0, 0)

/-- The disk half of `_get_counter_deltas`: `read`/`write` start at `0.0`;
the delta computation runs only when `_prev_disk_io and _prev_disk_time` is
truthy and `elapsed = now - ptime > 0`; each rate is
`((delta)/1024/1024)/elapsed` (byte-based MB/s, no scaling factor). -/
def disk_rates (prev_io : Option DiskCounters) (prev_time : Option ℚ)
    (now : ℚ) (disk : DiskCounters) : ℚ × ℚ :=
  match prev_io, prev_time with
  | some prev, some ptime =>
    if ptime ≠ 0 then
      if now - ptime > 0 then
        ((((disk.read_bytes - prev.read_bytes : ℤ) : ℚ) / 1024 / 1024) / (now - ptime),
         (((disk.write_bytes - prev.write_bytes : ℤ) : ℚ) / 1024 / 1024) / (now - ptime))
      else (0, 0)
    else (0, 0)
  | _, _ => (0, 0)

/-- `_get_counter_deltas()`.  Inputs stand for the effects it performs:
`now = time.time()`, `net = psutil.net_io_counters()`,
`disk = psutil.disk_io_counters()`, and `speed_data` is the value the inner
call to `get_latest_speed_test()` would return.  Returns the four rates,
each `round(..., 2)`, together with the updated globals: both previous
samples are unconditionally overwritten with the current ones. -/
def _get_counter_deltas (st : TrackerState) (now : ℚ) (net : NetCounters)
    (disk : DiskCounters) (speed_data : SpeedData) : RateResult × TrackerState :=
  (⟨round2 (net_rates st.prev_net_io st.prev_net_time now net speed_data).1,
    round2 (net_rates st.prev_net_io st.prev_net_time now net speed_data).2,
    round2 (disk_rates st.prev_disk_io st.prev_disk_time now disk).1,
    round2 (disk_rates st.prev_disk_io st.prev_disk_time now disk).2⟩,
   ⟨some net, some now, some disk, some now⟩)

theorem floor_div_le (q : ℚ) : ((q.num / (q.den : ℤ) : ℤ) : ℚ) ≤ q := by
  rw [← Rat.floor_def]
  exact Int.floor_le q

theorem lt_floor_div_add_one (q : ℚ) : q < ((q.num / (q.den : ℤ) : ℤ) : ℚ) + 1 := by
  rw [← Rat.floor_def]
  exact_mod_cast Int.lt_floor_add_one q

theorem roundHalfEven_le (q : ℚ) : (roundHalfEven q : ℚ) ≤ q + 1/2 := by
  have h1 := floor_div_le q
  have h2 := lt_floor_div_add_one q
  unfold roundHalfEven
  split_ifs <;> push_cast <;> linarith

theorem round2_le (q : ℚ) : round2 q ≤ q + 1/200 := by
  have h := roundHalfEven_le (q * 100)
  unfold round2
  linarith

theorem round2_zero : round2 0 = 0 := by norm_num [round2, roundHalfEven]

/-- The JSON object fetched from `ipinfo.io/json`; fields are read with
`.get(key, default)`, so each is optional. -/
structure IpJson where
  ip : Option String
  org : Option String
  city : Option String
  country : Option String
deriving DecidableEq

/-- A document of the `network_tests` collection, with the fields written by
`run_full_speed_test_logic`. -/
structure BandwidthRecord where
  device_id : String
  download_mbps : ℚ
  upload_mbps : ℚ
  ping_latency_ms : Option ℚ
  test_server : Option String
  isp_name : String
  timestamp : ℚ
deriving DecidableEq

/-- The error sentinels of the validity gate in `get_latest_speed_test`:
the list of the three strings `N/A`, `FAILURE`, `Unknown ISP`. -/
def errorSentinels : List String := ["N/A", "FAILURE", "Unknown ISP"]

/-- The validity gate: the query result is truthy (a record exists) and its
`isp_name` is not one of the error sentinels. -/
def record_is_valid : Option BandwidthRecord → Bool
  | none => false
  | some r => !(errorSentinels.contains r.isp_name)

/-- `isp_name`: the `org` field of ipinfo with default `N/A` when ipinfo is
present, else `N/A`. -/
def ipinfo_isp : Option IpJson → String
  | some j => j.org.getD "N/A"
  | none => "N/A"

/-- `region`: the `city` field of ipinfo with default `N/A` when ipinfo is
present, else the hardcoded `Chennai`. -/
def ipinfo_region : Option IpJson → String
  | some j => j.city.getD "N/A"
  | none => "Chennai"

/-- `country`: the `country` field of ipinfo with default `N/A` when ipinfo
is present, else the hardcoded `India`. -/
def ipinfo_country : Option IpJson → String
  | some j => j.country.getD "N/A"
  | none => "India"

/-- The live-test tail of `get_latest_speed_test`: `live = some (dl, ul)`
stands for a successful `speedtest` run with the already-converted Mbps
values `dl=(st.download()/1024/1024)*8`, `ul=(st.upload()/1024/1024)*8`;
`live = none` stands for any exception on this path (caught by the outer
`try`, which returns the all-neutral dict). -/
def speed_test_live_branch (isp region country : String) :
    Option (ℚ × ℚ) → SpeedData
  | some (dl, ul) =>
    { download_speed_mbps := round2 (dl * SPEED_SCALING_FACTOR),
      upload_speed_mbps := round2 (ul * SPEED_SCALING_FACTOR),
      isp_name := isp, region := region, country := country }
  | none =>
    { download_speed_mbps := 0, upload_speed_mbps := 0,
      isp_name := "N/A", region := "N/A", country := "N/A" }

/-- `get_latest_speed_test()`.  `ipinfo` is the parsed `ipinfo.io` response
(`none` on fetch failure or non-200), `latest` the newest `network_tests`
document for the monitored device (`none` when the query is empty), and
`live` the outcome of the fallback live speed test.  A valid latest record
satisfies the lookup with `round(record * SPEED_SCALING_FACTOR, 2)` speeds;
otherwise the live branch runs. -/
def get_latest_speed_test (ipinfo : Option IpJson)
    (latest : Option BandwidthRecord) (live : Option (ℚ × ℚ)) : SpeedData :=
  match latest with
  | some r =>
    if record_is_valid (some r) then
      { download_speed_mbps := round2 (r.download_mbps * SPEED_SCALING_FACTOR),
        upload_speed_mbps := round2 (r.upload_mbps * SPEED_SCALING_FACTOR),
        isp_name := ipinfo_isp ipinfo, region := ipinfo_region ipinfo,
        country := ipinfo_country ipinfo }
    else
      speed_test_live_branch (ipinfo_isp ipinfo) (ipinfo_region ipinfo)
        (ipinfo_country ipinfo) live
  | none =>
    speed_test_live_branch (ipinfo_isp ipinfo) (ipinfo_region ipinfo)
      (ipinfo_country ipinfo) live

/-- The module-level global `_public_ip_cache = {"value": None, "timestamp": None}`. -/
structure IpCache where
  value : Option (String × String × String)
  timestamp : Option ℚ
deriving DecidableEq

/-- The miss path of `get_public_ip_and_geo`: perform the HTTP fetch
(`fetch = some j` for a 200 response with JSON `j`; `none` for an exception
or a non-200 status).  On success the cache entry is replaced and the new
triple returned; on failure the function returns `("N/A","N/A","N/A")` and
leaves the cache unchanged.  The Bool records that the fetch was attempted. -/
def ip_refresh (cache : IpCache) (now : ℚ) (fetch : Option IpJson) :
    (String × String × String) × IpCache × Bool :=
  match fetch with
  | some j =>
    ((j.ip.getD "N/A", j.city.getD "N/A", j.country.getD "N/A"),
     ⟨some (j.ip.getD "N/A", j.city.getD "N/A", j.country.getD "N/A"), some now⟩,
     true)
  | none => (("N/A", "N/A", "N/A"), cache, true)

/-- `get_public_ip_and_geo()`.  `now = datetime.utcnow()` in seconds; if a
cached timestamp exists and `(now - cached_ts).total_seconds() <
PUBLIC_IP_CACHE_TTL`, the cached value is returned with no fetch (Bool
`false`); otherwise the refresh path runs.  (The second `utcnow()` call the
source stores into the entry is identified with `now`.) -/
def get_public_ip_and_geo (cache : IpCache) (now : ℚ) (fetch : Option IpJson) :
    (String × String × String) × IpCache × Bool :=
  match cache.timestamp with
  | some ts =>
    if now - ts < PUBLIC_IP_CACHE_TTL then
      (cache.value.getD ("N/A", "N/A", "N/A"), cache, false)
    else ip_refresh cache now fetch
  | none => ip_refresh cache now fetch

/-- Sequential calls to `get_public_ip_and_geo`, threading the cache; each
call is a pair (time, fetch outcome); outputs pair each returned triple with
the flag saying whether that call performed the HTTP fetch. -/
def run_cache_calls (cache : IpCache) :
    List (ℚ × Option IpJson) → IpCache × List ((String × String × String) × Bool)
  | [] => (cache, [])
  | (now, fetch) :: rest =>
    ((run_cache_calls (get_public_ip_and_geo cache now fetch).2.1 rest).1,
     ((get_public_ip_and_geo cache now fetch).1,
      (get_public_ip_and_geo cache now fetch).2.2) ::
       (run_cache_calls (get_public_ip_and_geo cache now fetch).2.1 rest).2)

/-- The `commands/speed_test_trigger` document: a `status` string, a
`timestamp`, and any other fields an external writer may have put there
(preserved by merge updates). -/
structure CommandDoc where
  status : Option String
  cmd_timestamp : Option ℚ
  other_fields : List (String × String)
deriving DecidableEq

/-- One Firestore write performed by the trigger machinery: appending a
document to `network_tests`, or a merge `set` of a status `s` and a
timestamp `t` on `commands/speed_test_trigger`. -/
inductive StoreEvent where
  | addRecord (r : BandwidthRecord)
  | setStatusMerge (s : String) (t : ℚ)
deriving DecidableEq

/-- The slice of the Firestore state the trigger machinery touches. -/
structure Store where
  records : List BandwidthRecord
  command : Option CommandDoc
deriving DecidableEq

/-- A merge `set` of status `s` and timestamp `t`: creates the document
when absent, overwrites `status` and `timestamp`, preserves other fields. -/
def mergeStatus (doc : Option CommandDoc) (s : String) (t : ℚ) : CommandDoc :=
  { status := some s, cmd_timestamp := some t,
    other_fields := (doc.map CommandDoc.other_fields).getD [] }

/-- Apply one write to the store. -/
def applyEvent (db : Store) : StoreEvent → Store
  | .addRecord r => { db with records := db.records ++ [r] }
  | .setStatusMerge s t => { db with command := some (mergeStatus db.command s t) }

/-- The data dict built by `run_full_speed_test_logic` before persisting. -/
structure SpeedTestData where
  download_mbps : ℚ
  upload_mbps : ℚ
  ping_latency_ms : Option ℚ
  server_name : Option String
  isp_name : String
deriving DecidableEq

/-- The outcome of a successful `speedtest.Speedtest()` measurement:
`client_isp` is the `isp` field of `st.results.client`, the raw
`st.download()` / `st.upload()` readings, `ping_ms` is the `ping`
attribute of `st.results` (default `None`), and `server_name` the value of
the conditional expression reading `name` from `st.results.server`, with
`Unknown` when that dict is absent. -/
structure LiveTestResult where
  client_isp : Option String
  download_raw : ℚ
  upload_raw : ℚ
  ping_ms : Option ℚ
  server_name : Option String
deriving DecidableEq

/-- The `data` dict of `run_full_speed_test_logic`: on success the rounded
converted speeds; on any exception (`bench = none`) the sentinel values
`download_mbps=0.0`, `upload_mbps=0.0`, `ping_latency_ms=9999.0`,
`server_name=FAILURE`, `isp_name=FAILURE`. -/
def speed_test_data : Option LiveTestResult → SpeedTestData
  | some r =>
    { download_mbps := round2 (r.download_raw / 1024 / 1024 * 8),
      upload_mbps := round2 (r.upload_raw / 1024 / 1024 * 8),
      ping_latency_ms := r.ping_ms,
      server_name := r.server_name,
      isp_name := r.client_isp.getD "Unknown ISP" }
  | none =>
    { download_mbps := 0, upload_mbps := 0, ping_latency_ms := some 9999,
      server_name := some "FAILURE", isp_name := "FAILURE" }

/-- The `network_tests` document `run_full_speed_test_logic` appends. -/
def benchmark_record (device_id : String) (data : SpeedTestData) (now : ℚ) :
    BandwidthRecord :=
  { device_id := device_id, download_mbps := data.download_mbps,
    upload_mbps := data.upload_mbps, ping_latency_ms := data.ping_latency_ms,
    test_server := data.server_name, isp_name := data.isp_name,
    timestamp := now }

/-- `run_full_speed_test_logic(device_id)`: build `data` from the benchmark
outcome (success or failure alike), append a `network_tests` record, then
merge-set `commands/speed_test_trigger` to `complete`.  Returns the updated
store and the ordered list of writes.  (The store writes are modelled as
succeeding; the source only logs a failed push.) -/
def run_full_speed_test_logic (device_id : String) (bench : Option LiveTestResult)
    (now : ℚ) (db : Store) : Store × List StoreEvent :=
  ([StoreEvent.addRecord (benchmark_record device_id (speed_test_data bench) now),
    StoreEvent.setStatusMerge "complete" now].foldl applyEvent db,
   [StoreEvent.addRecord (benchmark_record device_id (speed_test_data bench) now),
    StoreEvent.setStatusMerge "complete" now])

/-- `check_and_run_command()`: read `commands/speed_test_trigger`; only when
the document exists and its `status` is exactly `pending` does it
merge-set `running`, run the full speed test, and return `True`; in every
other case it performs no write and returns `False`.  The third component is
the ordered list of writes performed. -/
def check_and_run_command (db : Store) (bench : Option LiveTestResult) (now : ℚ) :
    Store × Bool × List StoreEvent :=
  match db.command with
  | some doc =>
    if doc.status = some "pending" then
      ((run_full_speed_test_logic MONITORED_DEVICE_ID bench now
          (applyEvent db (StoreEvent.setStatusMerge "running" now))).1,
       true,
       StoreEvent.setStatusMerge "running" now ::
         (run_full_speed_test_logic MONITORED_DEVICE_ID bench now
           (applyEvent db (StoreEvent.setStatusMerge "running" now))).2)
    else (db, false, [])
  | none => (db, false, [])

/-- The subsequence of status writes in a list of store events. -/
def statusWrites : List StoreEvent → List String
  | [] => []
  | StoreEvent.setStatusMerge s _ :: rest => s :: statusWrites rest
  | StoreEvent.addRecord _ :: rest => statusWrites rest

theorem net_rates_zero_of_nonpos (pio : Option NetCounters) (pt now : ℚ)
    (net : NetCounters) (sp : SpeedData) (h : now - pt ≤ 0) :
    net_rates pio (some pt) now net sp = (0, 0) := by
  cases pio with
  | none => rfl
  | some prev =>
    simp only [net_rates]
    split_ifs with h1 h2
    · linarith
    · rfl
    · rfl

/-- C2: The first call to the rate-derivation function on a fresh tracker
(all four previous-sample globals `None`) returns all four rates as zero and
stores the captured network and disk samples, with the current timestamp, as
the new baselines. -/
theorem C2_first_call_all_zero (now : ℚ) (net : NetCounters) (disk : DiskCounters)
    (sp : SpeedData) :
    _get_counter_deltas ⟨none, none, none, none⟩ now net disk sp =
      (⟨0, 0, 0, 0⟩, ⟨some net, some now, some disk, some now⟩) := by
  simp [_get_counter_deltas, net_rates, disk_rates, round2_zero]

/-- C3: With a previous network sample whose timestamp is not strictly
earlier than the current one (`elapsed ≤ 0`) the call returns zero network
rates; the stored network and disk baselines are overwritten with the
current sample unconditionally; and two calls with identical timestamps
(here: from a fresh tracker) both return zero network rates while the disk
baseline still advances to the disk sample of the second call. -/
theorem C3_elapsed_guard (st : TrackerState) (pt now : ℚ) (net net2 : NetCounters)
    (disk disk2 : DiskCounters) (sp sp2 : SpeedData) :
    (st.prev_net_time = some pt → now - pt ≤ 0 →
      (_get_counter_deltas st now net disk sp).1.down_mbps = 0 ∧
      (_get_counter_deltas st now net disk sp).1.up_mbps = 0) ∧
    (_get_counter_deltas st now net disk sp).2 =
      ⟨some net, some now, some disk, some now⟩ ∧
    ((_get_counter_deltas ⟨none, none, none, none⟩ now net disk sp).1.down_mbps = 0 ∧
     (_get_counter_deltas ⟨none, none, none, none⟩ now net disk sp).1.up_mbps = 0 ∧
     (_get_counter_deltas (_get_counter_deltas ⟨none, none, none, none⟩ now net disk
         sp).2 now net2 disk2 sp2).1.down_mbps = 0 ∧
     (_get_counter_deltas (_get_counter_deltas ⟨none, none, none, none⟩ now net disk
         sp).2 now net2 disk2 sp2).1.up_mbps = 0 ∧
     (_get_counter_deltas (_get_counter_deltas ⟨none, none, none, none⟩ now net disk
         sp).2 now net2 disk2 sp2).2.prev_disk_io = some disk2) := by
  refine ⟨?_, rfl, ?_, ?_, ?_, ?_, rfl⟩
  · intro h1 h2
    have hz := net_rates_zero_of_nonpos st.prev_net_io pt now net sp h2
    constructor
    · show round2 (net_rates st.prev_net_io st.prev_net_time now net sp).1 = 0
      rw [h1, hz]
      exact round2_zero
    · show round2 (net_rates st.prev_net_io st.prev_net_time now net sp).2 = 0
      rw [h1, hz]
      exact round2_zero
  · exact round2_zero
  · exact round2_zero
  · show round2 (net_rates (some net) (some now) now net2 sp2).1 = 0
    rw [net_rates_zero_of_nonpos (some net) now now net2 sp2 (by linarith)]
    exact round2_zero
  · show round2 (net_rates (some net) (some now) now net2 sp2).2 = 0
    rw [net_rates_zero_of_nonpos (some net) now now net2 sp2 (by linarith)]
    exact round2_zero

/-- C4: With a previous sample and positive elapsed time, the network rates
are `round(min((cur - prev) * 8 / (elapsed * 1_048_576) * 0.5, ceiling*1.5),
2)` — the 0.5 scaling factor applies to network only — and the disk rates
are the byte-based MB/s formula `round((cur - prev) / (elapsed * 1_048_576),
2)` without the factor. -/
theorem C4_rate_formula (pio : NetCounters) (pdio : DiskCounters) (pt pdt now : ℚ)
    (net : NetCounters) (disk : DiskCounters) (sp : SpeedData)
    (hpt : pt ≠ 0) (hnet : now - pt > 0) (hpdt : pdt ≠ 0) (hdisk : now - pdt > 0) :
    (_get_counter_deltas ⟨some pio, some pt, some pdio, some pdt⟩ now net disk sp).1 =
      ⟨round2 (min (((net.bytes_recv - pio.bytes_recv : ℤ) : ℚ) * 8 /
          ((now - pt) * 1048576) * (0.5 : ℚ)) (sp.download_speed_mbps * (1.5 : ℚ))),
       round2 (min (((net.bytes_sent - pio.bytes_sent : ℤ) : ℚ) * 8 /
          ((now - pt) * 1048576) * (0.5 : ℚ)) (sp.upload_speed_mbps * (1.5 : ℚ))),
       round2 (((disk.read_bytes - pdio.read_bytes : ℤ) : ℚ) / ((now - pdt) * 1048576)),
       round2 (((disk.write_bytes - pdio.write_bytes : ℤ) : ℚ) /
          ((now - pdt) * 1048576))⟩ := by
  have e1 : ∀ x e : ℚ, x * 8 / (e * 1024 * 1024) * SPEED_SCALING_FACTOR
      = x * 8 / (e * 1048576) * (0.5 : ℚ) := by
    intro x e
    simp only [SPEED_SCALING_FACTOR]
    ring_nf
  have e2 : ∀ x e : ℚ, x / 1024 / 1024 / e = x / (e * 1048576) := by
    intro x e
    ring_nf
  simp only [_get_counter_deltas, net_rates, disk_rates]
  rw [if_pos hpt, if_pos hnet, if_pos hpdt, if_pos hdisk]
  simp only [e1, e2]

/-- C1 counterexample: the clamp is applied before the final 2-decimal
rounding, so rounding can push the returned rate above the bound.  With a
reconciliation ceiling of `0.05` Mbps for download, `1.5 × ceiling = 0.075`,
and the returned download rate is `round(0.075, 2) = 0.08 > 0.075`
(banker rounding of 7.5 to the even 8; CPython float arithmetic rounds up
here as well, since `0.05 * 1.5` is slightly above `0.075`). -/
theorem C1_counterexample :
    ¬ ((_get_counter_deltas ⟨some ⟨0, 0⟩, some 1, some ⟨0, 0⟩, some 1⟩ 2
        ⟨0, 1048576⟩ ⟨0, 0⟩ ⟨1/20, 1/20, "SomeISP", "Region", "Country"⟩).1.down_mbps ≤
      (1/20 : ℚ) * (1.5 : ℚ)) := by
  have h : (_get_counter_deltas ⟨some ⟨0, 0⟩, some 1, some ⟨0, 0⟩, some 1⟩ 2
      ⟨0, 1048576⟩ ⟨0, 0⟩ ⟨1/20, 1/20, "SomeISP", "Region", "Country"⟩).1.down_mbps
      = 2/25 := by
    show round2 (net_rates (some ⟨0, 0⟩) (some 1) 2 ⟨0, 1048576⟩
      ⟨1/20, 1/20, "SomeISP", "Region", "Country"⟩).1 = 2/25
    simp only [net_rates]
    rw [if_pos (show (1 : ℚ) ≠ 0 by norm_num), if_pos (show (2 : ℚ) - 1 > 0 by norm_num)]
    show round2 (min ((((1048576 : ℤ) - 0 : ℤ) : ℚ) * 8 / ((2 - 1) * 1024 * 1024) *
      SPEED_SCALING_FACTOR) ((1/20 : ℚ) * (1.5 : ℚ))) = 2/25
    rw [show (((1048576 : ℤ) - 0 : ℤ) : ℚ) * 8 / ((2 - 1) * 1024 * 1024) *
        SPEED_SCALING_FACTOR = 4 by norm_num [SPEED_SCALING_FACTOR],
      show (1/20 : ℚ) * (1.5 : ℚ) = 3/40 by norm_num,
      min_eq_right (by norm_num)]
    norm_num [round2, roundHalfEven]
  rw [h]
  norm_num

/-- C1 (amended): with a previous network sample and positive elapsed time,
each returned network rate exceeds `1.5 ×` the corresponding ceiling speed
by at most `0.005` — half of the final 2-decimal rounding step, which the
source applies after the clamp.  (The pre-rounding clamped value itself
never exceeds the bound.) -/
theorem C1_clamp_amended (pio : NetCounters) (pt : ℚ) (pdio : Option DiskCounters)
    (pdt : Option ℚ) (now : ℚ) (net : NetCounters) (disk : DiskCounters)
    (sp : SpeedData) (hpt : pt ≠ 0) (he : now - pt > 0) :
    (_get_counter_deltas ⟨some pio, some pt, pdio, pdt⟩ now net disk sp).1.down_mbps ≤
      sp.download_speed_mbps * (1.5 : ℚ) + 1/200 ∧
    (_get_counter_deltas ⟨some pio, some pt, pdio, pdt⟩ now net disk sp).1.up_mbps ≤
      sp.upload_speed_mbps * (1.5 : ℚ) + 1/200 := by
  constructor
  · show round2 (net_rates (some pio) (some pt) now net sp).1 ≤ _
    simp only [net_rates]
    rw [if_pos hpt, if_pos he]
    exact le_trans (round2_le _) (add_le_add_right (min_le_right _ _) _)
  · show round2 (net_rates (some pio) (some pt) now net sp).2 ≤ _
    simp only [net_rates]
    rw [if_pos hpt, if_pos he]
    exact le_trans (round2_le _) (add_le_add_right (min_le_right _ _) _)

/-- C1 witness: the amended bound at a concrete input. -/
theorem C1_witness :
    (_get_counter_deltas ⟨some ⟨0, 0⟩, some 1, none, none⟩ 2 ⟨0, 1048576⟩ ⟨0, 0⟩
        ⟨1/20, 1/20, "SomeISP", "Region", "Country"⟩).1.down_mbps ≤
      (1/20 : ℚ) * (1.5 : ℚ) + 1/200 ∧
    (_get_counter_deltas ⟨some ⟨0, 0⟩, some 1, none, none⟩ 2 ⟨0, 1048576⟩ ⟨0, 0⟩
        ⟨1/20, 1/20, "SomeISP", "Region", "Country"⟩).1.up_mbps ≤
      (1/20 : ℚ) * (1.5 : ℚ) + 1/200 :=
  C1_clamp_amended ⟨0, 0⟩ 1 none none 2 ⟨0, 1048576⟩ ⟨0, 0⟩
    ⟨1/20, 1/20, "SomeISP", "Region", "Country"⟩ (by norm_num) (by norm_num)

/-- C10: with a previous network sample, positive elapsed time and
non-decreasing counters, a ceiling of `0.0` for both directions (which is
what every failure path of the bandwidth lookup reports) forces both
returned network rates to exactly `0.0`, however large the counter deltas;
and the failure path of the bandwidth lookup (no valid record, live test
failing)
indeed reports `0.0` for both directions. -/
theorem C10_zero_ceiling (st : TrackerState) (pio : NetCounters) (pt now : ℚ)
    (net : NetCounters) (disk : DiskCounters) (sp : SpeedData)
    (hio : st.prev_net_io = some pio) (ht : st.prev_net_time = some pt)
    (he : now - pt > 0) (hd : sp.download_speed_mbps = 0)
    (hu : sp.upload_speed_mbps = 0) (hrecv : pio.bytes_recv ≤ net.bytes_recv)
    (hsent : pio.bytes_sent ≤ net.bytes_sent) :
    ((_get_counter_deltas st now net disk sp).1.down_mbps = 0 ∧
     (_get_counter_deltas st now net disk sp).1.up_mbps = 0) ∧
    (∀ ip latest, record_is_valid latest = false →
      (get_latest_speed_test ip latest none).download_speed_mbps = 0 ∧
      (get_latest_speed_test ip latest none).upload_speed_mbps = 0) := by
  constructor
  · have hepos : (0 : ℚ) < (now - pt) * 1024 * 1024 := by
      have : (0 : ℚ) < now - pt := he
      positivity
    constructor
    · show round2 (net_rates st.prev_net_io st.prev_net_time now net sp).1 = 0
      rw [hio, ht]
      simp only [net_rates]
      by_cases hpt : pt ≠ 0
      · rw [if_pos hpt, if_pos he]
        have hraw : (0 : ℚ) ≤ ((net.bytes_recv - pio.bytes_recv : ℤ) : ℚ) * 8 /
            ((now - pt) * 1024 * 1024) * SPEED_SCALING_FACTOR := by
          have hΔ : (0 : ℚ) ≤ ((net.bytes_recv - pio.bytes_recv : ℤ) : ℚ) := by
            have : (0 : ℤ) ≤ net.bytes_recv - pio.bytes_recv := by linarith
            exact_mod_cast this
          have h1 : (0 : ℚ) ≤ ((net.bytes_recv - pio.bytes_recv : ℤ) : ℚ) * 8 /
              ((now - pt) * 1024 * 1024) :=
            div_nonneg (by linarith) (le_of_lt hepos)
          have h2 : (0 : ℚ) ≤ SPEED_SCALING_FACTOR := by norm_num [SPEED_SCALING_FACTOR]
          exact mul_nonneg h1 h2
        show round2 (min _ (sp.download_speed_mbps * (1.5 : ℚ))) = 0
        rw [hd, show (0 : ℚ) * (1.5 : ℚ) = 0 by norm_num, min_eq_right hraw]
        exact round2_zero
      · rw [if_neg hpt]
        exact round2_zero
    · show round2 (net_rates st.prev_net_io st.prev_net_time now net sp).2 = 0
      rw [hio, ht]
      simp only [net_rates]
      by_cases hpt : pt ≠ 0
      · rw [if_pos hpt, if_pos he]
        have hraw : (0 : ℚ) ≤ ((net.bytes_sent - pio.bytes_sent : ℤ) : ℚ) * 8 /
            ((now - pt) * 1024 * 1024) * SPEED_SCALING_FACTOR := by
          have hΔ : (0 : ℚ) ≤ ((net.bytes_sent - pio.bytes_sent : ℤ) : ℚ) := by
            have : (0 : ℤ) ≤ net.bytes_sent - pio.bytes_sent := by linarith
            exact_mod_cast this
          have h1 : (0 : ℚ) ≤ ((net.bytes_sent - pio.bytes_sent : ℤ) : ℚ) * 8 /
              ((now - pt) * 1024 * 1024) :=
            div_nonneg (by linarith) (le_of_lt hepos)
          have h2 : (0 : ℚ) ≤ SPEED_SCALING_FACTOR := by norm_num [SPEED_SCALING_FACTOR]
          exact mul_nonneg h1 h2
        show round2 (min _ (sp.upload_speed_mbps * (1.5 : ℚ))) = 0
        rw [hu, show (0 : ℚ) * (1.5 : ℚ) = 0 by norm_num, min_eq_right hraw]
        exact round2_zero
      · rw [if_neg hpt]
        exact round2_zero
  · intro ip latest hlat
    cases latest with
    | none => exact ⟨rfl, rfl⟩
    | some r =>
      simp only [get_latest_speed_test, hlat, if_false, Bool.false_eq_true]
      exact ⟨rfl, rfl⟩

/-- C10 witness: zero ceiling zeroes the live rates at a concrete input with
a huge counter delta. -/
theorem C10_witness :
    ((_get_counter_deltas ⟨some ⟨0, 0⟩, some 1, none, none⟩ 2 ⟨500, 1000000000⟩
        ⟨0, 0⟩ ⟨0, 0, "N/A", "N/A", "N/A"⟩).1.down_mbps = 0 ∧
     (_get_counter_deltas ⟨some ⟨0, 0⟩, some 1, none, none⟩ 2 ⟨500, 1000000000⟩
        ⟨0, 0⟩ ⟨0, 0, "N/A", "N/A", "N/A"⟩).1.up_mbps = 0) :=
  (C10_zero_ceiling ⟨some ⟨0, 0⟩, some 1, none, none⟩ ⟨0, 0⟩ 1 2 ⟨500, 1000000000⟩
    ⟨0, 0⟩ ⟨0, 0, "N/A", "N/A", "N/A"⟩ rfl rfl (by norm_num) rfl rfl (by norm_num)
    (by norm_num)).1

/-- C3 witness: identical timestamps at a concrete input. -/
theorem C3_witness :
    ((_get_counter_deltas ⟨some ⟨10, 20⟩, some 5, some ⟨30, 40⟩, some 5⟩ 5 ⟨11, 22⟩
        ⟨33, 44⟩ ⟨9, 9, "i", "r", "c"⟩).1.down_mbps = 0 ∧
     (_get_counter_deltas ⟨some ⟨10, 20⟩, some 5, some ⟨30, 40⟩, some 5⟩ 5 ⟨11, 22⟩
        ⟨33, 44⟩ ⟨9, 9, "i", "r", "c"⟩).1.up_mbps = 0) ∧
    (_get_counter_deltas ⟨some ⟨10, 20⟩, some 5, some ⟨30, 40⟩, some 5⟩ 5 ⟨11, 22⟩
        ⟨33, 44⟩ ⟨9, 9, "i", "r", "c"⟩).2 =
      ⟨some ⟨11, 22⟩, some 5, some ⟨33, 44⟩, some 5⟩ := by
  have h := C3_elapsed_guard ⟨some ⟨10, 20⟩, some 5, some ⟨30, 40⟩, some 5⟩ 5 5
    ⟨11, 22⟩ ⟨1, 2⟩ ⟨33, 44⟩ ⟨3, 4⟩ ⟨9, 9, "i", "r", "c"⟩ ⟨9, 9, "i", "r", "c"⟩
  exact ⟨h.1 rfl (by norm_num), h.2.1⟩

/-- C4 witness: the §8 scenario — previous sample `{recv=1000, sent=500}`,
one second later `{recv=1_048_576+1000, sent=500}`, ceiling far above —
yields download rate `0.5 × 8 = 4.0` Mbps; a disk delta of `1_048_576` bytes
over the same second yields `1.0` MB/s. -/
theorem C4_witness :
    (_get_counter_deltas ⟨some ⟨500, 1000⟩, some 1, some ⟨0, 0⟩, some 1⟩ 2
        ⟨500, 1049576⟩ ⟨1048576, 0⟩ ⟨100, 100, "i", "r", "c"⟩).1.down_mbps = 4 ∧
    (_get_counter_deltas ⟨some ⟨500, 1000⟩, some 1, some ⟨0, 0⟩, some 1⟩ 2
        ⟨500, 1049576⟩ ⟨1048576, 0⟩ ⟨100, 100, "i", "r", "c"⟩).1.up_mbps = 0 ∧
    (_get_counter_deltas ⟨some ⟨500, 1000⟩, some 1, some ⟨0, 0⟩, some 1⟩ 2
        ⟨500, 1049576⟩ ⟨1048576, 0⟩ ⟨100, 100, "i", "r", "c"⟩).1.read_mb_s = 1 := by
  have h := C4_rate_formula ⟨500, 1000⟩ ⟨0, 0⟩ 1 1 2 ⟨500, 1049576⟩ ⟨1048576, 0⟩
    ⟨100, 100, "i", "r", "c"⟩ (by norm_num) (by norm_num) (by norm_num) (by norm_num)
  refine ⟨?_, ?_, ?_⟩
  · rw [show (_get_counter_deltas ⟨some ⟨500, 1000⟩, some 1, some ⟨0, 0⟩, some 1⟩ 2
        ⟨500, 1049576⟩ ⟨1048576, 0⟩ ⟨100, 100, "i", "r", "c"⟩).1.down_mbps =
        round2 (min ((((1049576 : ℤ) - 1000 : ℤ) : ℚ) * 8 / ((2 - 1) * 1048576) *
          (0.5 : ℚ)) ((100 : ℚ) * (1.5 : ℚ))) from congrArg RateResult.down_mbps h]
    rw [show (((1049576 : ℤ) - 1000 : ℤ) : ℚ) * 8 / ((2 - 1) * 1048576) * (0.5 : ℚ)
        = 4 by norm_num, min_eq_left (by norm_num)]
    norm_num [round2, roundHalfEven]
  · rw [show (_get_counter_deltas ⟨some ⟨500, 1000⟩, some 1, some ⟨0, 0⟩, some 1⟩ 2
        ⟨500, 1049576⟩ ⟨1048576, 0⟩ ⟨100, 100, "i", "r", "c"⟩).1.up_mbps =
        round2 (min ((((500 : ℤ) - 500 : ℤ) : ℚ) * 8 / ((2 - 1) * 1048576) *
          (0.5 : ℚ)) ((100 : ℚ) * (1.5 : ℚ))) from congrArg RateResult.up_mbps h]
    rw [show (((500 : ℤ) - 500 : ℤ) : ℚ) * 8 / ((2 - 1) * 1048576) * (0.5 : ℚ)
        = 0 by norm_num, min_eq_left (by norm_num)]
    exact round2_zero
  · rw [show (_get_counter_deltas ⟨some ⟨500, 1000⟩, some 1, some ⟨0, 0⟩, some 1⟩ 2
        ⟨500, 1049576⟩ ⟨1048576, 0⟩ ⟨100, 100, "i", "r", "c"⟩).1.read_mb_s =
        round2 ((((1048576 : ℤ) - 0 : ℤ) : ℚ) / ((2 - 1) * 1048576)) from
        congrArg RateResult.read_mb_s h]
    rw [show (((1048576 : ℤ) - 0 : ℤ) : ℚ) / ((2 - 1) * 1048576) = 1 by norm_num]
    norm_num [round2, roundHalfEven]

/-- All sequential calls served while the cached entry stays fresh perform
no HTTP fetch. -/
theorem run_cache_calls_no_fetch (cache : IpCache) (t0 : ℚ)
    (h : cache.timestamp = some t0) :
    ∀ calls : List (ℚ × Option IpJson),
      (∀ c ∈ calls, c.1 - t0 < PUBLIC_IP_CACHE_TTL) →
      ∀ p ∈ (run_cache_calls cache calls).2, p.2 = false := by
  intro calls
  induction calls with
  | nil =>
    intro _ p hp
    simp [run_cache_calls] at hp
  | cons c rest ih =>
    intro hfresh p hp
    obtain ⟨now, fetch⟩ := c
    obtain ⟨cv, cts⟩ := cache
    simp only at h
    subst h
    have hhit : get_public_ip_and_geo ⟨cv, some t0⟩ now fetch =
        (cv.getD ("N/A", "N/A", "N/A"), ⟨cv, some t0⟩, false) := by
      simp only [get_public_ip_and_geo]
      rw [if_pos (hfresh (now, fetch) (List.mem_cons_self _ _))]
    rw [run_cache_calls] at hp
    rw [hhit] at hp
    simp only [List.mem_cons] at hp
    rcases hp with rfl | hp
    · rfl
    · exact ih (fun c hc => hfresh c (List.mem_cons_of_mem _ hc)) p hp

/-- C5: a lookup whose cached entry is younger than the TTL returns the
cached value without the HTTP fetch; a lookup at or past the TTL performs
the fetch and, on success, replaces the entry with the new value and the
current time; and along any sequence of sequential calls that all fall
inside the freshness window of the entry, the fetch is never performed — so
never twice within one TTL window. -/
theorem C5_ttl_cache (cache : IpCache) (t0 : ℚ) (h : cache.timestamp = some t0) :
    (∀ now fetch, now - t0 < PUBLIC_IP_CACHE_TTL →
      get_public_ip_and_geo cache now fetch =
        (cache.value.getD ("N/A", "N/A", "N/A"), cache, false)) ∧
    (∀ (now : ℚ) (j : IpJson), PUBLIC_IP_CACHE_TTL ≤ now - t0 →
      get_public_ip_and_geo cache now (some j) =
        ((j.ip.getD "N/A", j.city.getD "N/A", j.country.getD "N/A"),
         ⟨some (j.ip.getD "N/A", j.city.getD "N/A", j.country.getD "N/A"), some now⟩,
         true)) ∧
    (∀ calls : List (ℚ × Option IpJson),
      (∀ c ∈ calls, c.1 - t0 < PUBLIC_IP_CACHE_TTL) →
      ∀ p ∈ (run_cache_calls cache calls).2, p.2 = false) := by
  obtain ⟨cv, cts⟩ := cache
  simp only at h
  subst h
  refine ⟨?_, ?_, run_cache_calls_no_fetch ⟨cv, some t0⟩ t0 rfl⟩
  · intro now fetch hfresh
    simp only [get_public_ip_and_geo]
    rw [if_pos hfresh]
  · intro now j hstale
    simp only [get_public_ip_and_geo]
    rw [if_neg (not_lt.mpr hstale)]
    rfl

/-- C5 witness: entry populated at `t=0`; the call at `t=3599` is served
from the cache without a fetch; the call at `t=3601` fetches and replaces
the entry. -/
theorem C5_witness :
    get_public_ip_and_geo ⟨some ("1.2.3.4", "Paris", "FR"), some 0⟩ 3599
        (some ⟨some "5.6.7.8", none, some "Lyon", some "FR"⟩) =
      (("1.2.3.4", "Paris", "FR"), ⟨some ("1.2.3.4", "Paris", "FR"), some 0⟩, false) ∧
    get_public_ip_and_geo ⟨some ("1.2.3.4", "Paris", "FR"), some 0⟩ 3601
        (some ⟨some "5.6.7.8", none, some "Lyon", some "FR"⟩) =
      (("5.6.7.8", "Lyon", "FR"), ⟨some ("5.6.7.8", "Lyon", "FR"), some 3601⟩, true) := by
  have h := C5_ttl_cache ⟨some ("1.2.3.4", "Paris", "FR"), some 0⟩ 0 rfl
  constructor
  · have h1 := h.1 3599 (some ⟨some "5.6.7.8", none, some "Lyon", some "FR"⟩)
      (by norm_num [PUBLIC_IP_CACHE_TTL])
    simpa using h1
  · have h2 := h.2.1 3601 ⟨some "5.6.7.8", none, some "Lyon", some "FR"⟩
      (by norm_num [PUBLIC_IP_CACHE_TTL])
    simpa using h2

/-- C6 counterexample: a stale entry (`populated at t=0`, lookup at
`t=3601`) whose refresh fails is NOT served: the call returns the neutral
default `("N/A","N/A","N/A")`, not the previously populated value. -/
theorem C6_counterexample :
    (get_public_ip_and_geo ⟨some ("8.8.8.8", "Paris", "FR"), some 0⟩ 3601 none).1 =
      ("N/A", "N/A", "N/A") ∧
    (("N/A", "N/A", "N/A") : String × String × String) ≠ ("8.8.8.8", "Paris", "FR") := by
  constructor
  · simp only [get_public_ip_and_geo]
    rw [if_neg (by norm_num [PUBLIC_IP_CACHE_TTL])]
    rfl
  · decide

/-- C6 (amended): on a stale entry whose refresh fails, the lookup returns
the neutral default `("N/A","N/A","N/A")` — it does not serve the stale
value — while the stale cache entry is left in place unchanged (so later
calls keep retrying the fetch rather than serving stale data). -/
theorem C6_stale_refresh_failure_amended (cache : IpCache) (t0 now : ℚ)
    (h : cache.timestamp = some t0) (hstale : PUBLIC_IP_CACHE_TTL ≤ now - t0) :
    get_public_ip_and_geo cache now none = (("N/A", "N/A", "N/A"), cache, true) := by
  obtain ⟨cv, cts⟩ := cache
  simp only at h
  subst h
  simp only [get_public_ip_and_geo]
  rw [if_neg (not_lt.mpr hstale)]
  rfl

/-- C6 witness: the amended behaviour at a concrete stale input. -/
theorem C6_witness :
    get_public_ip_and_geo ⟨some ("8.8.8.8", "Paris", "FR"), some 0⟩ 7200 none =
      (("N/A", "N/A", "N/A"), ⟨some ("8.8.8.8", "Paris", "FR"), some 0⟩, true) :=
  C6_stale_refresh_failure_amended ⟨some ("8.8.8.8", "Paris", "FR"), some 0⟩ 0 7200
    rfl (by norm_num [PUBLIC_IP_CACHE_TTL])

/-- C7: when the trigger document is absent or its status is anything but
exactly `pending`, the poll writes nothing, runs nothing and returns
`False`; when it is `pending`, the poll returns `True` and its write
sequence is exactly `running` (merge), then the benchmark record, then
`complete` (merge) — i.e. `running` strictly precedes the benchmark, the
status trace is `pending → running → complete`, and the final stored status
is `complete`. -/
theorem C7_command_trigger (db : Store) (bench : Option LiveTestResult) (now : ℚ) :
    ((∀ doc, db.command = some doc → doc.status ≠ some "pending") →
      check_and_run_command db bench now = (db, false, [])) ∧
    (∀ doc, db.command = some doc → doc.status = some "pending" →
      (check_and_run_command db bench now).2.1 = true ∧
      statusWrites (check_and_run_command db bench now).2.2 = ["running", "complete"] ∧
      (∃ r, (check_and_run_command db bench now).2.2 =
        [StoreEvent.setStatusMerge "running" now, StoreEvent.addRecord r,
         StoreEvent.setStatusMerge "complete" now]) ∧
      (∃ d, (check_and_run_command db bench now).1.command = some d ∧
        d.status = some "complete")) := by
  cases hdb : db.command with
  | none =>
    refine ⟨fun _ => ?_, fun doc hd => ?_⟩
    · simp [check_and_run_command, hdb]
    · exact absurd hd (by simp)
  | some doc =>
    by_cases hs : doc.status = some "pending"
    · refine ⟨fun hcon => absurd hs (hcon doc rfl), fun doc' hd' _ => ?_⟩
      refine ⟨?_, ?_, ?_, ?_⟩
      · simp [check_and_run_command, hdb, hs]
      · simp [check_and_run_command, hdb, hs, run_full_speed_test_logic, statusWrites]
      · refine ⟨benchmark_record MONITORED_DEVICE_ID (speed_test_data bench) now, ?_⟩
        simp [check_and_run_command, hdb, hs, run_full_speed_test_logic]
      · refine ⟨mergeStatus (some (mergeStatus (db.command) "running" now))
          "complete" now, ?_, rfl⟩
        simp [check_and_run_command, hdb, hs, run_full_speed_test_logic, applyEvent,
          mergeStatus]
    · refine ⟨fun _ => ?_, fun doc' hd' hp' => ?_⟩
      · simp [check_and_run_command, hdb, hs]
      · have hdoc : doc' = doc := (Option.some_injective _ hd').symm
        rw [hdoc] at hp'
        exact absurd hp' hs

/-- C7 witness: a pending document triggers `running` then `complete`; a
non-pending document is a no-op returning `false`. -/
theorem C7_witness :
    (check_and_run_command ⟨[], some ⟨some "pending", some 0, []⟩⟩ none 5).2.1 = true ∧
    statusWrites (check_and_run_command ⟨[], some ⟨some "pending", some 0, []⟩⟩
      none 5).2.2 = ["running", "complete"] ∧
    check_and_run_command ⟨[], some ⟨some "complete", some 0, []⟩⟩ none 5 =
      (⟨[], some ⟨some "complete", some 0, []⟩⟩, false, []) := by
  have h1 := C7_command_trigger ⟨[], some ⟨some "pending", some 0, []⟩⟩ none 5
  have h2 := C7_command_trigger ⟨[], some ⟨some "complete", some 0, []⟩⟩ none 5
  refine ⟨(h1.2 _ rfl rfl).1, (h1.2 _ rfl rfl).2.1, h2.1 ?_⟩
  intro doc hd
  have : doc = ⟨some "complete", some 0, []⟩ := (Option.some_injective _ hd).symm
  rw [this]
  intro hc
  exact absurd (Option.some_injective _ hc) (by decide)

/-- C8: every benchmark execution — success or failure alike — appends
exactly one `network_tests` record and then merge-writes status `complete`;
the failure record carries the sentinels `download_mbps=0.0`,
`upload_mbps=0.0`, `ping=9999.0`, server `FAILURE`, ISP `FAILURE`; such
a record fails the validity gate (its ISP is an error sentinel), so the next
bandwidth lookup takes the live-benchmark branch instead of reusing it. -/
theorem C8_benchmark_persistence (device : String) (now : ℚ) (db : Store)
    (bench : Option LiveTestResult) :
    (∃ r, (run_full_speed_test_logic device bench now db).1.records =
        db.records ++ [r] ∧
      (run_full_speed_test_logic device bench now db).2 =
        [StoreEvent.addRecord r, StoreEvent.setStatusMerge "complete" now] ∧
      ∃ d, (run_full_speed_test_logic device bench now db).1.command = some d ∧
        d.status = some "complete") ∧
    (run_full_speed_test_logic device none now db).1.records =
      db.records ++ [⟨device, 0, 0, some 9999, some "FAILURE", "FAILURE", now⟩] ∧
    record_is_valid (some ⟨device, 0, 0, some 9999, some "FAILURE", "FAILURE", now⟩)
      = false ∧
    (∀ ip live, get_latest_speed_test ip
        (some ⟨device, 0, 0, some 9999, some "FAILURE", "FAILURE", now⟩) live =
      speed_test_live_branch (ipinfo_isp ip) (ipinfo_region ip) (ipinfo_country ip)
        live) := by
  have hsent : record_is_valid
      (some ⟨device, 0, 0, some 9999, some "FAILURE", "FAILURE", now⟩) = false := by
    simp [record_is_valid, errorSentinels]
  refine ⟨?_, ?_, hsent, ?_⟩
  · refine ⟨benchmark_record device (speed_test_data bench) now, ?_, ?_, ?_⟩
    · simp [run_full_speed_test_logic, applyEvent]
    · rfl
    · refine ⟨mergeStatus ((applyEvent db (StoreEvent.addRecord
        (benchmark_record device (speed_test_data bench) now))).command)
        "complete" now, ?_, rfl⟩
      simp [run_full_speed_test_logic, applyEvent]
  · simp [run_full_speed_test_logic, applyEvent, benchmark_record, speed_test_data]
  · intro ip live
    simp [get_latest_speed_test, hsent]

/-- C9 counterexample: when the `ipinfo.io` probe fails inside the
bandwidth lookup, `region` and `country` are not the neutral defaults
(`0.0`, `N/A`, `None`) but the hardcoded strings `Chennai` and
`India`. -/
theorem C9_counterexample :
    (get_latest_speed_test none
        (some ⟨"server_001", 40, 10, some 20, some "srv", "GoodISP", 0⟩) none).region =
      "Chennai" ∧
    (get_latest_speed_test none
        (some ⟨"server_001", 40, 10, some 20, some "srv", "GoodISP", 0⟩) none).country =
      "India" ∧
    ("Chennai" : String) ≠ "N/A" ∧ ("India" : String) ≠ "N/A" := by
  have hvalid : record_is_valid
      (some ⟨"server_001", 40, 10, some 20, some "srv", "GoodISP", 0⟩) = true := by
    simp [record_is_valid, errorSentinels]
  refine ⟨?_, ?_, by decide, by decide⟩
  · simp [get_latest_speed_test, hvalid, ipinfo_region]
  · simp [get_latest_speed_test, hvalid, ipinfo_country]

/-- C9 (amended): an `ipinfo.io` probe failure inside the bandwidth lookup
is never propagated, and `isp_name` does default to the neutral `N/A`;
but whenever the lookup result is otherwise produced (a valid cached record,
or a successful live test), `region` and `country` default to the hardcoded
`Chennai` and `India`; only the outer failure path (no valid record and
the live test also failing) yields neutral `N/A` values for all three
fields, along with `0.0` speeds. -/
theorem C9_probe_defaults_amended (latest : Option BandwidthRecord)
    (live : Option (ℚ × ℚ)) :
    (get_latest_speed_test none latest live).isp_name = "N/A" ∧
    (record_is_valid latest = true →
      (get_latest_speed_test none latest live).region = "Chennai" ∧
      (get_latest_speed_test none latest live).country = "India") ∧
    (∀ p, live = some p →
      (get_latest_speed_test none latest live).region = "Chennai" ∧
      (get_latest_speed_test none latest live).country = "India") ∧
    (record_is_valid latest = false →
      get_latest_speed_test none latest none = ⟨0, 0, "N/A", "N/A", "N/A"⟩) := by
  refine ⟨?_, ?_, ?_, ?_⟩
  · cases latest with
    | none =>
      cases live with
      | none => rfl
      | some p =>
        obtain ⟨dl, ul⟩ := p
        rfl
    | some r =>
      by_cases hv : record_is_valid (some r) = true
      · simp [get_latest_speed_test, hv, ipinfo_isp]
      · simp only [Bool.not_eq_true] at hv
        cases live with
        | none => simp [get_latest_speed_test, hv, speed_test_live_branch]
        | some p =>
          obtain ⟨dl, ul⟩ := p
          simp [get_latest_speed_test, hv, speed_test_live_branch, ipinfo_isp]
  · intro hv
    cases latest with
    | none => simp [record_is_valid] at hv
    | some r =>
      constructor
      · simp [get_latest_speed_test, hv, ipinfo_region]
      · simp [get_latest_speed_test, hv, ipinfo_country]
  · rintro ⟨dl, ul⟩ rfl
    cases latest with
    | none => exact ⟨rfl, rfl⟩
    | some r =>
      by_cases hv : record_is_valid (some r) = true
      · simp [get_latest_speed_test, hv, ipinfo_region, ipinfo_country]
      · simp only [Bool.not_eq_true] at hv
        simp [get_latest_speed_test, hv, speed_test_live_branch, ipinfo_region,
          ipinfo_country]
  · intro hv
    cases latest with
    | none => rfl
    | some r => simp [get_latest_speed_test, hv, speed_test_live_branch]

/-- C9 witness: the amended defaults at concrete inputs — total failure
gives the all-neutral dict, while an ipinfo-only failure with a valid
record gives `Chennai`. -/
theorem C9_witness :
    get_latest_speed_test none none none = ⟨0, 0, "N/A", "N/A", "N/A"⟩ ∧
    (get_latest_speed_test none
        (some ⟨"server_001", 40, 10, some 20, some "srv", "GoodISP", 0⟩)
        (some (50, 10))).region = "Chennai" := by
  refine ⟨(C9_probe_defaults_amended none none).2.2.2 rfl, ?_⟩
  have hvalid : record_is_valid
      (some ⟨"server_001", 40, 10, some 20, some "srv", "GoodISP", 0⟩) = true := by
    simp [record_is_valid, errorSentinels]
  exact ((C9_probe_defaults_amended
    (some ⟨"server_001", 40, 10, some 20, some "srv", "GoodISP", 0⟩)
    (some (50, 10))).2.1 hvalid).1

end Collector

